import Mathlib

/-!
Verification of the VeriSure media-forensics core against its specification.

The definitions below are shallow embeddings of `backend/forensics.py`
(evidence fusion, compression analysis, channel statistics, video
indicator extraction) and `backend/advanced_forensics.py` (error-level
analysis, JPEG ghost detection).  Python floats are modelled as exact
rationals; `random.sample` outcomes are modelled explicitly as an input;
Python runtime errors (AttributeError / TypeError) are modelled with
`Except`.  Theorems at the end settle the specification claims.
-/

namespace VeriSure

/-- Checks whether `needle` occurs as a contiguous sublist of `hay`;
models the Python substring test `needle in hay`. -/
def hasSubstr (hay needle : List Char) : Bool :=
  (List.range (hay.length + 1)).any (fun i => needle.isPrefixOf (hay.drop i))

/-- Models Python `needle in hay` on strings. -/
def strContains (hay needle : String) : Bool :=
  hasSubstr hay.data needle.data

/-- Models Python `s.lower()` character-wise (every keyword the fusion
engine compares against is ASCII). -/
def strToLower (s : String) : String := String.mk (s.data.map Char.toLower)

deriving instance DecidableEq for Except

/-- The four categorized signal lists produced by every extractor
(`forensic_indicators` dictionaries built in forensics.py). -/
structure SignalBucket where
  human_signals : List String
  ai_signals : List String
  manipulation_signals : List String
  inconclusive_signals : List String
deriving DecidableEq

/-- The secondary AI opinion consumed by `fuse_evidence`
(`ai_analysis` argument: `origin.classification`, `origin.confidence`,
top-level `ai_signals` and `human_signals`). -/
structure SecondaryOpinion where
  classification : String
  confidence : String
  ai_signals : List String
  human_signals : List String
deriving DecidableEq

/-- The tuple `(classification, confidence, reason, all_indicators)`
returned by `fuse_evidence` (forensics.py lines 719-862). -/
structure FusionVerdict where
  classification : String
  confidence : String
  reason : String
  indicators : List String
deriving DecidableEq

/-- The rule ladder of `fuse_evidence` (forensics.py lines 769-862) as a
function of the four signal counts and the three opinion flags, returning
`(classification, confidence, reason)`.  Every `return` of the source
carries the same `all_indicators` list, so the ladder is factored out of
the verdict construction.  The sequential `if/elif/return` structure is
rendered as a nested if-expression; rule 5 (lines 834-842) does not
return when neither of its inner conditions holds, so its two inner
returns are flattened into two guarded branches through which control
falls into rule 6 and the final default, as in the source. -/
def fuse_classification (num_human num_ai num_manipulation num_inconclusive : Nat)
    (ai_agrees_ai_generated ai_agrees_original ai_opinion_strong : Bool) :
    String × String × String :=
  let total_evidence := num_human + num_ai + num_manipulation
  if 3 ≤ num_ai ∧ num_human = 0 then
    (("Likely AI-Generated"), ("high"),
      "Strong forensic evidence: " ++ toString num_ai ++
        " AI generation indicators detected with no authentic signals")
  else if 2 ≤ num_ai ∧ num_human = 0 then
    if ai_agrees_ai_generated ∧ ai_opinion_strong then
      (("Likely AI-Generated"), ("high"),
        "Forensic analysis (" ++ toString num_ai ++
          " AI indicators) strongly supported by AI opinion analysis")
    else
      (("Likely AI-Generated"), ("medium"),
        "Forensic analysis detected " ++ toString num_ai ++
          " AI generation indicators with no human capture signals")
  else if 1 ≤ num_ai ∧ num_human = 0 ∧ ai_agrees_ai_generated ∧ ai_opinion_strong then
    (("Likely AI-Generated"), ("medium"),
      ("Forensic AI indicator combined with strong AI opinion suggests synthetic content"))
  else if 3 ≤ num_human ∧ num_ai = 0 then
    (("Likely Original"), ("high"),
      "Strong authenticity: " ++ toString num_human ++
        " genuine capture signals with no AI indicators")
  else if 2 ≤ num_human ∧ num_ai = 0 then
    if ai_agrees_original ∧ ai_opinion_strong then
      (("Likely Original"), ("high"),
        "Forensic authenticity (" ++ toString num_human ++
          " signals) confirmed by AI visual analysis")
    else
      (("Likely Original"), ("medium"),
        "Forensic analysis detected " ++ toString num_human ++
          " authentic capture signals with no AI indicators")
  else if 1 ≤ num_human ∧ num_ai = 0 ∧ ai_agrees_original ∧ ai_opinion_strong then
    (("Likely Original"), ("medium"),
      ("Authentic metadata combined with AI opinion suggests original content"))
  else if 1 ≤ num_human ∧ 2 ≤ num_manipulation then
    (("Hybrid / Manipulated"), (if 3 ≤ num_manipulation then "high" else "medium"),
      "Original content detected with " ++ toString num_manipulation ++
        " manipulation indicators (edited/processed)")
  else if 1 ≤ num_human ∧ 1 ≤ num_manipulation then
    (("Hybrid / Manipulated"), ("medium"),
      ("Authentic source with editing artifacts detected"))
  else if 1 ≤ num_human ∧ 1 ≤ num_ai then
    if num_human < num_ai ∧ ai_agrees_ai_generated then
      (("Likely AI-Generated"), ("low"),
        "Mixed signals: " ++ toString num_ai ++ " AI vs " ++ toString num_human ++
          " human indicators, leaning AI-generated")
    else if num_ai < num_human ∧ ai_agrees_original then
      (("Likely Original"), ("low"),
        "Mixed signals: " ++ toString num_human ++ " human vs " ++ toString num_ai ++
          " AI indicators, leaning original")
    else
      (("Unclear / Mixed Signals"), ("low"),
        "Conflicting evidence: " ++ toString num_human ++ " human signals vs " ++
          toString num_ai ++ " AI indicators")
  else if 1 ≤ total_evidence ∧ total_evidence < 2 ∧ num_ai = 1 ∧
      ai_agrees_ai_generated ∧ ai_opinion_strong then
    (("Likely AI-Generated"), ("low"),
      ("Limited forensic evidence supported by AI opinion suggests synthetic content"))
  else if 1 ≤ total_evidence ∧ total_evidence < 2 ∧ num_human = 1 ∧
      ai_agrees_original ∧ ai_opinion_strong then
    (("Likely Original"), ("low"),
      ("Limited forensic evidence supported by AI opinion suggests original content"))
  else if total_evidence < 1 ∨ 0 < num_inconclusive then
    if ai_agrees_ai_generated ∧ ai_opinion_strong then
      (("Unclear / Mixed Signals"), ("low"),
        ("No forensic evidence available; AI opinion suggests synthetic content (weak signal)"))
    else if ai_agrees_original ∧ ai_opinion_strong then
      (("Unclear / Mixed Signals"), ("low"),
        ("No forensic evidence available; AI opinion suggests original content (weak signal)"))
    else
      (("Inconclusive"), ("low"),
        "Insufficient evidence for classification (" ++ toString total_evidence ++
          " indicators detected)")
  else
    (("Inconclusive"), ("low"),
      ("Evidence pattern does not match classification rules"))

/-- Embeds `fuse_evidence` (forensics.py lines 719-862) on well-typed
inputs: signal counts and opinion-agreement flags are derived exactly as
in lines 740-767, the indicator list as in lines 748-753, and the rule
ladder is `fuse_classification`. -/
def fuse_evidence (f : SignalBucket) (a : SecondaryOpinion) : FusionVerdict :=
  let all_indicators :=
    f.human_signals.map (fun s => "[FORENSIC] " ++ s) ++
    f.ai_signals.map (fun s => "[FORENSIC AI] " ++ s) ++
    f.manipulation_signals.map (fun s => "[FORENSIC EDIT] " ++ s) ++
    (a.ai_signals.take 3).map (fun s => "[AI OPINION] " ++ s)
  let lowered := strToLower a.classification
  let ai_agrees_ai_generated :=
    strContains lowered ("likely ai") || strContains lowered ("ai-generated")
  let ai_agrees_original :=
    strContains lowered ("likely original") || strContains lowered ("likely human")
  let ai_opinion_strong : Bool := a.confidence == "high" || a.confidence == "medium"
  let r := fuse_classification f.human_signals.length f.ai_signals.length
    f.manipulation_signals.length f.inconclusive_signals.length
    ai_agrees_ai_generated ai_agrees_original ai_opinion_strong
  ⟨r.1, r.2.1, r.2.2, all_indicators⟩

/-- Dynamically typed Python values, as far as `fuse_evidence` inspects
them: `None`, strings, integers, lists and string-keyed dictionaries. -/
inductive PyVal where
  | none : PyVal
  | str : String → PyVal
  | int : Int → PyVal
  | listv : List PyVal → PyVal
  | dict : List (String × PyVal) → PyVal

/-- Models Python `v.get(k, d)`: dictionary lookup with a default;
calling `.get` on anything that is not a dict (in particular on `None`)
raises `AttributeError`. -/
def pyGetAttr (v : PyVal) (k : String) (d : PyVal) : Except String PyVal :=
  match v with
  | .dict kvs => .ok ((((kvs.find? (fun p => p.1 == k)).map Prod.snd)).getD d)
  | _ => .error ("AttributeError")

/-- Models Python iteration `for s in v`: lists yield their elements,
strings yield their characters, dicts yield their keys; iterating `None`
or an integer raises `TypeError`. -/
def pyIter : PyVal → Except String (List PyVal)
  | .listv xs => .ok xs
  | .str s => .ok (s.data.map (fun c => .str (String.mk [c])))
  | .dict kvs => .ok (kvs.map (fun p => .str p.1))
  | _ => .error ("TypeError")

/-- Models Python `v[:3]`: slicing is defined on lists and strings and
raises `TypeError` otherwise. -/
def pySlice3 : PyVal → Except String PyVal
  | .listv xs => .ok (.listv (xs.take 3))
  | .str s => .ok (.str (String.mk (s.data.take 3)))
  | _ => .error ("TypeError")

/-- Models Python `str(v)` as used by the f-strings of `fuse_evidence`.
Rendering of containers is abbreviated; no theorem below depends on the
rendering of a container that sits inside a signal list. -/
def pyStr : PyVal → String
  | .none => "None"
  | .str s => s
  | .int n => toString n
  | .listv _ => "[...]"
  | .dict _ => "\x7b...\x7d"

/-- Embeds `fuse_evidence` on raw dynamically-typed inputs, following the
source order of operations (forensics.py lines 734-766): the `.get`
extractions, then the indicator list comprehensions (lines 748-753, which
iterate the four signal lists and slice `ai_indicators[:3]`), then the
`len` counts (756-759, modelled by the lengths of the iterated lists plus
an iteration of `inconclusive_signals`), then the `.lower()` calls on the
opinion classification (765-766, an `AttributeError` on a non-string).
Once every access has succeeded the verdict equals the well-typed
`fuse_evidence` on the converted values. -/
def fuse_evidence_raw (forensic_analysis ai_analysis : PyVal) :
    Except String FusionVerdict := do
  let forensic_indicators ← pyGetAttr forensic_analysis ("forensic_indicators") (.dict [])
  let human_signals ← pyGetAttr forensic_indicators ("human_signals") (.listv [])
  let ai_signals ← pyGetAttr forensic_indicators ("ai_signals") (.listv [])
  let manipulation_signals ← pyGetAttr forensic_indicators ("manipulation_signals") (.listv [])
  let inconclusive_signals ← pyGetAttr forensic_indicators ("inconclusive_signals") (.listv [])
  let ai_opinion ← pyGetAttr ai_analysis ("origin") (.dict [])
  let ai_classification ← pyGetAttr ai_opinion ("classification") (.str ("Unclear / Mixed Signals"))
  let ai_confidence ← pyGetAttr ai_opinion ("confidence") (.str ("low"))
  let ai_indicators ← pyGetAttr ai_analysis ("ai_signals") (.listv [])
  let _human_opinion_signals ← pyGetAttr ai_analysis ("human_signals") (.listv [])
  let hs ← pyIter human_signals
  let ais ← pyIter ai_signals
  let ms ← pyIter manipulation_signals
  let sliced ← pySlice3 ai_indicators
  let aio ← pyIter sliced
  let ics ← pyIter inconclusive_signals
  let cls ← (match ai_classification with
    | .str s => Except.ok s
    | _ => Except.error ("AttributeError"))
  Except.ok (fuse_evidence
    ⟨hs.map pyStr, ais.map pyStr, ms.map pyStr, ics.map pyStr⟩
    ⟨cls, pyStr ai_confidence, aio.map pyStr, []⟩)

/-- Encodes a well-typed forensic analysis result (as produced by the
image/audio extractors) as the Python dictionary passed to
`fuse_evidence`. -/
def forensicResultPy (b : SignalBucket) : PyVal :=
  .dict [(("forensic_indicators"),
    .dict [(("human_signals"), .listv (b.human_signals.map PyVal.str)),
           (("ai_signals"), .listv (b.ai_signals.map PyVal.str)),
           (("manipulation_signals"), .listv (b.manipulation_signals.map PyVal.str)),
           (("inconclusive_signals"), .listv (b.inconclusive_signals.map PyVal.str))])]

/-- Encodes a well-typed secondary opinion as the Python dictionary
passed to `fuse_evidence`. -/
def secondaryOpinionPy (a : SecondaryOpinion) : PyVal :=
  .dict [(("origin"),
    .dict [(("classification"), .str a.classification),
           (("confidence"), .str a.confidence)]),
         (("ai_signals"), .listv (a.ai_signals.map PyVal.str)),
         (("human_signals"), .listv (a.human_signals.map PyVal.str))]

/-- Embeds `_extract_video_forensic_indicators` (forensics.py lines
423-424).  In the source this `def` contains nothing but its docstring:
the indicator-construction block (lines 474-550) sits textually inside
`_extract_key_frames` after its `return frames` statement (line 472) and
is unreachable.  A Python function whose body is only a docstring returns
`None`. -/
def extract_video_forensic_indicators (_signals : PyVal) : PyVal :=
  PyVal.none

/-- Embeds the `forensic_indicators` field stored by the success path of
`analyze_video` (forensics.py lines 401-402):
`signals['forensic_indicators'] = self._extract_video_forensic_indicators(signals)`. -/
def analyze_video_forensic_indicators (signals : PyVal) : PyVal :=
  extract_video_forensic_indicators signals

/-- Rounds to the nearest integer with ties to even, the behaviour of
Python `round` on exactly representable values. -/
def roundHalfEven (q : ℚ) : ℤ :=
  let f := ⌊q⌋
  let r := q - f
  if r < 1/2 then f
  else if 1/2 < r then f + 1
  else if f % 2 = 0 then f else f + 1

/-- Models Python `round(q, 2)`. -/
def round2 (q : ℚ) : ℚ := (roundHalfEven (q * 100) : ℚ) / 100

/-- Models Python `round(q, 4)`. -/
def round4 (q : ℚ) : ℚ := (roundHalfEven (q * 10000) : ℚ) / 10000

/-- Embeds the `manipulation_suspected`/`confidence` classification of
`error_level_analysis` (advanced_forensics.py lines 116-128) as a
function of the computed difference-map statistics `high_error_percentage`
and `std_error`. -/
def ela_classification (high_error_percentage std_error : ℚ) : Bool × String :=
  if 15 < high_error_percentage ∧ 20 < std_error then (true, ("high"))
  else if 10 < high_error_percentage ∨ 15 < std_error then (true, ("medium"))
  else if 5 < high_error_percentage then (true, ("low"))
  else (false, ("low"))

/-- The fixed quality ladder `self.ghost_qualities`
(advanced_forensics.py line 24). -/
def ghost_qualities : List Nat := [70, 75, 80, 85, 90, 95]

/-- Embeds the local-minimum scan of `jpeg_ghost_detection`
(advanced_forensics.py lines 274-278): interior points of the
quality/MSE list that are strictly lower than both neighbours. -/
def localMinima (qd : List (Nat × ℚ)) : List (Nat × ℚ) :=
  ((List.range (qd.length - 2)).map (· + 1)).filterMap fun i =>
    match qd[i-1]?, qd[i]?, qd[i+1]? with
    | some a, some b, some c => if b.2 < a.2 ∧ b.2 < c.2 then some b else none
    | _, _, _ => Option.none

/-- Embeds Python `min(quality_differences, key=lambda x: x[1])`
(advanced_forensics.py line 281): the first pair attaining the minimal
MSE (ties keep the earlier element). -/
def pyMinByVal (x : Nat × ℚ) (xs : List (Nat × ℚ)) : Nat × ℚ :=
  xs.foldl (fun acc y => if y.2 < acc.2 then y else acc) x

/-- The dictionary returned by `jpeg_ghost_detection`
(advanced_forensics.py lines 302-310). -/
structure GhostResult where
  minima_detected : Nat
  suspected_quality_levels : List Nat
  best_match_quality : Nat
  best_match_difference : ℚ
  editing_detected : Bool
  confidence : String
deriving DecidableEq

/-- Embeds `jpeg_ghost_detection` (advanced_forensics.py lines 273-310)
as a function of the per-quality MSE values computed by the re-compression
loop (lines 259-271); `mses` lists the MSE at each quality of
`ghost_qualities` in order.  Returns `Option.none` only when the zipped
quality/MSE list is empty (where the source `min` would raise). -/
def jpeg_ghost_classification (mses : List ℚ) : Option GhostResult :=
  match ghost_qualities.zip mses with
  | [] => Option.none
  | q :: qs =>
    let quality_differences := q :: qs
    let minima := localMinima quality_differences
    let min_diff := pyMinByVal q qs
    let ec : Bool × String :=
      if 2 ≤ minima.length then (true, ("high"))
      else if minima.length = 1 then (true, ("medium"))
      else if min_diff.1 < 95 ∧ min_diff.2 < 50 then (true, ("low"))
      else (false, ("low"))
    some ⟨minima.length, minima.map Prod.fst, min_diff.1, round2 min_diff.2, ec.1, ec.2⟩

/-- The aspects of a decoded PIL image read by `_analyze_compression`:
`image.format` (`None` for images without a source file), `image.mode`,
the pixel dimensions, and the three observations the function makes of
`image.info` (the declared JPEG quality, the presence of a
`quantization` key, and whether `'jpeg'` occurs in `str(image.info).lower()`). -/
structure PILImage where
  format : Option String
  mode : String
  width : Nat
  height : Nat
  info_quality : Option Int
  info_has_quantization : Bool
  info_contains_jpeg : Bool
deriving DecidableEq

/-- The dictionary returned by `_analyze_compression`
(forensics.py lines 188-194). -/
structure CompressionSignals where
  format : Option String
  file_size : Nat
  compression_ratio : ℚ
  re_encoding_detected : Bool
  re_encoding_indicators : List String
deriving DecidableEq

/-- Embeds `_analyze_compression` (forensics.py lines 186-227).
`uncompressed_size = width * height * len(image.mode)`; when it is zero
the `ZeroDivisionError` of line 199 is caught at line 224 and the signals
keep their initial values (ratio `0.0`, no indicators).  The `< 0.05`
re-encoding check and the quality/quantization checks run only under
`image.format == 'JPEG'`; the metadata check only under `'PNG'`. -/
def analyze_compression (image : PILImage) (byte_len : Nat) : CompressionSignals :=
  let uncompressed_size := image.width * image.height * image.mode.length
  if uncompressed_size = 0 then
    ⟨image.format, byte_len, 0, false, []⟩
  else
    let ratio := round4 ((byte_len : ℚ) / (uncompressed_size : ℚ))
    if image.format = some "JPEG" then
      let det := ratio < 0.05
      let inds₁ : List String :=
        if ratio < 0.05 then [("Unusually high compression (possible multiple re-encodings)")]
        else []
      let inds₂ : List String :=
        match image.info_quality with
        | some q => if q < 75 then
            [("Low JPEG quality (" ++ toString q ++ ") suggests re-encoding")] else []
        | Option.none => []
      let inds₃ : List String :=
        if image.info_has_quantization then [("Non-standard quantization tables detected")]
        else []
      ⟨image.format, byte_len, ratio, det, inds₁ ++ inds₂ ++ inds₃⟩
    else if image.format = some "PNG" then
      ⟨image.format, byte_len, ratio, false,
        if image.info_contains_jpeg then [("PNG contains JPEG metadata (format conversion)")]
        else []⟩
    else
      ⟨image.format, byte_len, ratio, false, []⟩

/-- Rounds a real to the nearest integer with ties to even (Python
`round` on the real value a float computation denotes). -/
noncomputable def roundHalfEvenR (x : ℝ) : ℤ :=
  let f := ⌊x⌋
  let r := x - f
  if r < 1/2 then f
  else if 1/2 < r then f + 1
  else if f % 2 = 0 then f else f + 1

/-- Models Python `round(x, 2)` on reals. -/
noncomputable def round2R (x : ℝ) : ℝ := (roundHalfEvenR (x * 100) : ℝ) / 100

/-- The per-channel `{'mean': …, 'std_dev': …}` dictionary of
`_analyze_image_statistics`. -/
structure ChannelStats where
  mean : ℚ
  std_dev : ℝ

/-- The statistics dictionary returned by `_analyze_image_statistics`
(forensics.py lines 255-274). -/
structure ImageStats where
  red_channel : ChannelStats
  green_channel : ChannelStats
  blue_channel : ChannelStats
  uniformity_score : ℝ
  suspicious_patterns : List String

/-- Embeds `calc_stats` (forensics.py lines 249-253): population mean and
standard deviation of the sampled channel values, both rounded to two
decimals for the returned dictionary.  Pixel values are exact rationals;
`variance ** 0.5` is the real square root. -/
noncomputable def calc_stats (values : List ℚ) : ChannelStats :=
  let mean := values.sum / (values.length : ℚ)
  let variance := (values.map (fun x => (x - mean) ^ 2)).sum / (values.length : ℚ)
  ⟨round2 mean, round2R (Real.sqrt (variance : ℝ))⟩

/-- Size of the pixel sample drawn at forensics.py line 240:
`min(10000, len(pixels))`. -/
def sample_size (pixels : List (ℚ × ℚ × ℚ)) : Nat := min 10000 pixels.length

/-- Characterizes the possible outcomes of
`random.sample(pixels, sample_size)` (forensics.py line 242): a list of
`sample_size` elements drawn from `pixels` without replacement, in any
order (a permutation of a sublist). -/
def IsSample (pixels s : List (ℚ × ℚ × ℚ)) : Prop :=
  s.length = sample_size pixels ∧ s.Subperm pixels

/-- Embeds `_analyze_image_statistics` (forensics.py lines 229-274) as a
function of the sampled RGB pixels (the success path; an empty sample
would hit the `except` clause of line 276 instead).  `avg_std` averages
the three rounded per-channel standard deviations; below 20 the
"unnatural uniformity" ai signal and the uniformity score are produced,
above 100 the "noise injection" signal. -/
noncomputable def analyze_image_statistics (sampled_pixels : List (ℚ × ℚ × ℚ)) : ImageStats :=
  let r_values := sampled_pixels.map (fun p => p.1)
  let g_values := sampled_pixels.map (fun p => p.2.1)
  let b_values := sampled_pixels.map (fun p => p.2.2)
  let red := calc_stats r_values
  let green := calc_stats g_values
  let blue := calc_stats b_values
  let avg_std := (red.std_dev + green.std_dev + blue.std_dev) / 3
  if avg_std < 20 then
    ⟨red, green, blue, round2R ((20 - avg_std) / 20),
      [("Very low color variance (unnatural uniformity)")]⟩
  else if 100 < avg_std then
    ⟨red, green, blue, 0, [("Very high color variance (possible noise injection)")]⟩
  else
    ⟨red, green, blue, 0, []⟩

theorem str_append_ne_empty (s t : String) (h : s ≠ "") : s ++ t ≠ "" := by
  intro hc
  apply h
  have hl := congrArg String.length hc
  rw [String.length_append] at hl
  simp at hl
  obtain ⟨h1, _⟩ := hl
  cases s with
  | mk data =>
    cases data with
    | nil => rfl
    | cons a l => simp [String.length] at h1

theorem pyStr_str (s : String) : pyStr (.str s) = s := rfl

theorem map_pyStr_map_str (l : List String) : (l.map PyVal.str).map pyStr = l := by
  simp [List.map_map, Function.comp_def, pyStr]

/-- Every branch of the rule ladder produces a non-empty reason string. -/
theorem fuse_classification_reason_ne_empty (nh na nm ni : Nat) (b1 b2 b3 : Bool) :
    (fuse_classification nh na nm ni b1 b2 b3).2.2 ≠ "" := by
  have ne3 : ∀ (s t u : String), s ≠ "" → s ++ t ++ u ≠ "" := fun s t u h =>
    str_append_ne_empty _ _ (str_append_ne_empty _ _ h)
  have ne5 : ∀ (s t u v w : String), s ≠ "" → s ++ t ++ u ++ v ++ w ≠ "" :=
    fun s t u v w h =>
      str_append_ne_empty _ _ (str_append_ne_empty _ _
        (str_append_ne_empty _ _ (str_append_ne_empty _ _ h)))
  unfold fuse_classification
  dsimp only
  by_cases hA1 : 3 ≤ na ∧ nh = 0
  · rw [if_pos hA1]; exact ne3 _ _ _ (by decide)
  rw [if_neg hA1]
  by_cases hA2 : 2 ≤ na ∧ nh = 0
  · rw [if_pos hA2]
    by_cases hB1 : b1 = true ∧ b3 = true
    · rw [if_pos hB1]; exact ne3 _ _ _ (by decide)
    · rw [if_neg hB1]; exact ne3 _ _ _ (by decide)
  rw [if_neg hA2]
  by_cases hA3 : 1 ≤ na ∧ nh = 0 ∧ b1 = true ∧ b3 = true
  · rw [if_pos hA3]; decide
  rw [if_neg hA3]
  by_cases hA4 : 3 ≤ nh ∧ na = 0
  · rw [if_pos hA4]; exact ne3 _ _ _ (by decide)
  rw [if_neg hA4]
  by_cases hA5 : 2 ≤ nh ∧ na = 0
  · rw [if_pos hA5]
    by_cases hB2 : b2 = true ∧ b3 = true
    · rw [if_pos hB2]; exact ne3 _ _ _ (by decide)
    · rw [if_neg hB2]; exact ne3 _ _ _ (by decide)
  rw [if_neg hA5]
  by_cases hA6 : 1 ≤ nh ∧ na = 0 ∧ b2 = true ∧ b3 = true
  · rw [if_pos hA6]; decide
  rw [if_neg hA6]
  by_cases hA7 : 1 ≤ nh ∧ 2 ≤ nm
  · rw [if_pos hA7]; exact ne3 _ _ _ (by decide)
  rw [if_neg hA7]
  by_cases hA8 : 1 ≤ nh ∧ 1 ≤ nm
  · rw [if_pos hA8]; decide
  rw [if_neg hA8]
  by_cases hA9 : 1 ≤ nh ∧ 1 ≤ na
  · rw [if_pos hA9]
    by_cases hC1 : nh < na ∧ b1 = true
    · rw [if_pos hC1]; exact ne5 _ _ _ _ _ (by decide)
    rw [if_neg hC1]
    by_cases hC2 : na < nh ∧ b2 = true
    · rw [if_pos hC2]; exact ne5 _ _ _ _ _ (by decide)
    · rw [if_neg hC2]; exact ne5 _ _ _ _ _ (by decide)
  rw [if_neg hA9]
  by_cases hA10 : 1 ≤ nh + na + nm ∧ nh + na + nm < 2 ∧ na = 1 ∧ b1 = true ∧ b3 = true
  · rw [if_pos hA10]; decide
  rw [if_neg hA10]
  by_cases hA11 : 1 ≤ nh + na + nm ∧ nh + na + nm < 2 ∧ nh = 1 ∧ b2 = true ∧ b3 = true
  · rw [if_pos hA11]; decide
  rw [if_neg hA11]
  by_cases hA12 : nh + na + nm < 1 ∨ 0 < ni
  · rw [if_pos hA12]
    by_cases hD1 : b1 = true ∧ b3 = true
    · rw [if_pos hD1]; decide
    rw [if_neg hD1]
    by_cases hD2 : b2 = true ∧ b3 = true
    · rw [if_pos hD2]; decide
    · rw [if_neg hD2]; exact ne3 _ _ _ (by decide)
  · rw [if_neg hA12]; decide

/-- Helper congruence for `fuse_evidence`: the verdict depends on the
opinion's `ai_signals` only through their first three elements, and not
at all on the opinion's `human_signals`. -/
theorem fuse_evidence_congr (f : SignalBucket) (c conf : String)
    (l1 l2 hs1 hs2 : List String) (hl : l1.take 3 = l2.take 3) :
    fuse_evidence f ⟨c, conf, l1, hs1⟩ = fuse_evidence f ⟨c, conf, l2, hs2⟩ := by
  unfold fuse_evidence
  dsimp only
  rw [hl]

/-- C1: a bucket with at least three ai signals and no human signals
forces the verdict `Likely AI-Generated` with `high` confidence, for
every secondary opinion (rule 1 of the ladder fires first). -/
theorem C1_rule1_dominates (f : SignalBucket) (a : SecondaryOpinion)
    (hai : 3 ≤ f.ai_signals.length) (hh : f.human_signals.length = 0) :
    (fuse_evidence f a).classification = "Likely AI-Generated" ∧
    (fuse_evidence f a).confidence = "high" := by
  unfold fuse_evidence fuse_classification
  dsimp only
  rw [if_pos ⟨hai, hh⟩]
  exact ⟨rfl, rfl⟩

theorem C1_rule1_dominates_witness :
    (fuse_evidence ⟨[], [("a"), ("b"), ("c")], [], []⟩
      ⟨("Likely Original"), ("high"), [("x")], [("y")]⟩).classification =
        "Likely AI-Generated" ∧
    (fuse_evidence ⟨[], [("a"), ("b"), ("c")], [], []⟩
      ⟨("Likely Original"), ("high"), [("x")], [("y")]⟩).confidence = "high" :=
  C1_rule1_dominates _ _ (by decide) (by decide)

/-- C9: the secondary opinion's `human_signals` list is extracted by
`fuse_evidence` but never used: verdicts agree for any two opinions
differing only in that field. -/
theorem C9_opinion_human_signals_unused (f : SignalBucket) (c conf : String)
    (ais hs1 hs2 : List String) :
    fuse_evidence f ⟨c, conf, ais, hs1⟩ = fuse_evidence f ⟨c, conf, ais, hs2⟩ := rfl

/-- C10: manipulation evidence alone (no human, ai or inconclusive
signals) matches no rule of the ladder — rule 3 needs a human signal and
rule 6 needs either no evidence or an inconclusive entry — so the final
default verdict is returned. -/
theorem C10_manipulation_alone_falls_through (f : SignalBucket) (a : SecondaryOpinion)
    (hh : f.human_signals.length = 0) (hai : f.ai_signals.length = 0)
    (hm : 1 ≤ f.manipulation_signals.length) (hi : f.inconclusive_signals.length = 0) :
    (fuse_evidence f a).classification = "Inconclusive" ∧
    (fuse_evidence f a).confidence = "low" ∧
    (fuse_evidence f a).reason = "Evidence pattern does not match classification rules" := by
  have h0 : ¬ f.manipulation_signals.length < 1 := by omega
  unfold fuse_evidence fuse_classification
  simp [hh, hai, hi, h0]

theorem C10_manipulation_alone_falls_through_witness :
    (fuse_evidence ⟨[], [], [("Multiple re-encodings detected")], []⟩
      ⟨("Likely AI-Generated"), ("high"), [], []⟩).classification = "Inconclusive" ∧
    (fuse_evidence ⟨[], [], [("Multiple re-encodings detected")], []⟩
      ⟨("Likely AI-Generated"), ("high"), [], []⟩).confidence = "low" ∧
    (fuse_evidence ⟨[], [], [("Multiple re-encodings detected")], []⟩
      ⟨("Likely AI-Generated"), ("high"), [], []⟩).reason =
        "Evidence pattern does not match classification rules" :=
  C10_manipulation_alone_falls_through _ _ (by decide) (by decide) (by decide) (by decide)

/-- Every branch of `fuse_evidence` returns the same `all_indicators`
list built at forensics.py lines 748-753. -/
theorem fuse_evidence_indicators_eq (f : SignalBucket) (a : SecondaryOpinion) :
    (fuse_evidence f a).indicators =
      f.human_signals.map (fun s => "[FORENSIC] " ++ s) ++
      f.ai_signals.map (fun s => "[FORENSIC AI] " ++ s) ++
      f.manipulation_signals.map (fun s => "[FORENSIC EDIT] " ++ s) ++
      (a.ai_signals.take 3).map (fun s => "[AI OPINION] " ++ s) := rfl

/-- C7 counterexample: with an empty bucket and an opinion carrying no
`ai_signals`, the indicator list of the verdict is empty — the claim that
`fuse` always returns a non-empty indicators list is false. -/
theorem C7_counterexample :
    (fuse_evidence ⟨[], [], [], []⟩
      ⟨("Unclear / Mixed Signals"), ("low"), [], []⟩).indicators = [] := by
  rw [fuse_evidence_indicators_eq]
  rfl

/-- C7 amended: the reason string is never empty, and the indicators list
is exactly the prefixed concatenation (`[FORENSIC]`, `[FORENSIC AI]`,
`[FORENSIC EDIT]`, then at most three `[AI OPINION]` entries); it is
therefore non-empty whenever any forensic signal or any opinion ai signal
exists, but empty when there are none. -/
theorem C7_reason_populated (f : SignalBucket) (a : SecondaryOpinion) :
    (fuse_evidence f a).reason ≠ "" ∧
    (fuse_evidence f a).indicators =
      f.human_signals.map (fun s => "[FORENSIC] " ++ s) ++
      f.ai_signals.map (fun s => "[FORENSIC AI] " ++ s) ++
      f.manipulation_signals.map (fun s => "[FORENSIC EDIT] " ++ s) ++
      (a.ai_signals.take 3).map (fun s => "[AI OPINION] " ++ s) ∧
    (f.human_signals ≠ [] ∨ f.ai_signals ≠ [] ∨ f.manipulation_signals ≠ [] ∨
        a.ai_signals ≠ [] →
      (fuse_evidence f a).indicators ≠ []) := by
  refine ⟨?_, fuse_evidence_indicators_eq f a, ?_⟩
  · exact fuse_classification_reason_ne_empty _ _ _ _ _ _ _
  · intro hsig
    rw [fuse_evidence_indicators_eq]
    intro heq
    rw [List.append_eq_nil, List.append_eq_nil, List.append_eq_nil] at heq
    obtain ⟨⟨⟨e1, e2⟩, e3⟩, e4⟩ := heq
    rcases hsig with hl | hl | hl | hl
    · exact hl (List.map_eq_nil_iff.mp e1)
    · exact hl (List.map_eq_nil_iff.mp e2)
    · exact hl (List.map_eq_nil_iff.mp e3)
    · have e5 := List.map_eq_nil_iff.mp e4
      cases h : a.ai_signals with
      | nil => exact hl h
      | cons x xs => rw [h] at e5; simp at e5

theorem C7_reason_populated_witness :
    (fuse_evidence ⟨[("Camera metadata present")], [], [], []⟩
      ⟨("Unclear / Mixed Signals"), ("low"), [], []⟩).indicators ≠ [] :=
  (C7_reason_populated _ _).2.2 (Or.inl (by decide))

/-- C2 counterexample: a forensic result whose `forensic_indicators`
field is present but `None` makes `fuse_evidence` raise `AttributeError`
at `forensic_indicators.get('human_signals', [])` — the engine is not
total on garbled inputs. -/
theorem C2_counterexample :
    fuse_evidence_raw (PyVal.dict [(("forensic_indicators"), PyVal.none)])
      (PyVal.dict []) = Except.error ("AttributeError") := rfl

/-- C2 amended: `fuse_evidence` returns a complete verdict for every
well-typed pair of inputs — in particular for every bucket produced by
the image/audio extractors and every well-formed secondary opinion — and
two fully absent inputs map to the `Inconclusive`/`low` default; but it
does throw when a field such as `forensic_indicators` is present with
value `None` (see the counterexample). -/
theorem C2_fuse_total_on_welltyped :
    (∀ (b : SignalBucket) (a : SecondaryOpinion),
      fuse_evidence_raw (forensicResultPy b) (secondaryOpinionPy a) =
        Except.ok (fuse_evidence b a)) ∧
    fuse_evidence_raw (PyVal.dict []) (PyVal.dict []) =
      Except.ok ⟨("Inconclusive"), ("low"),
        ("Insufficient evidence for classification (0 indicators detected)"), []⟩ := by
  constructor
  · intro b a
    cases b with
    | mk bh bai bm bic =>
      cases a with
      | mk c conf ais hs =>
        show Except.ok (fuse_evidence
            ⟨(bh.map PyVal.str).map pyStr, (bai.map PyVal.str).map pyStr,
             (bm.map PyVal.str).map pyStr, (bic.map PyVal.str).map pyStr⟩
            ⟨c, pyStr (PyVal.str conf), ((ais.map PyVal.str).take 3).map pyStr, []⟩) =
          Except.ok (fuse_evidence ⟨bh, bai, bm, bic⟩ ⟨c, conf, ais, hs⟩)
        rw [map_pyStr_map_str, map_pyStr_map_str, map_pyStr_map_str, map_pyStr_map_str]
        rw [← List.map_take, map_pyStr_map_str, pyStr_str]
        exact congrArg Except.ok
          (fuse_evidence_congr _ _ _ _ _ _ _ (by simp [List.take_take]))
  · decide

/-- C3: on the success path of `analyze_video` the stored
`forensic_indicators` value is `None` — not a signal bucket at all —
because `_extract_video_forensic_indicators` has a docstring-only body;
any subsequent `.get` on it (as in `fuse_evidence` or the caller in
server.py line 721) raises `AttributeError`. -/
theorem C3_video_bucket_is_none :
    analyze_video_forensic_indicators (PyVal.dict []) = PyVal.none ∧
    pyGetAttr (analyze_video_forensic_indicators (PyVal.dict []))
      ("inconclusive_signals") (PyVal.listv []) = Except.error ("AttributeError") :=
  ⟨rfl, rfl⟩

/-- C5: ELA classifies manipulation and confidence from the fixed
breakpoints on the difference-map statistics, exactly as the spec states
them: `pct>15 ∧ std>20 → high`; otherwise `pct>10 ∨ std>15 → medium`;
otherwise `pct>5 → low`; otherwise manipulation is not suspected. -/
theorem C5_ela_breakpoints (pct std : ℚ) :
    (15 < pct ∧ 20 < std → ela_classification pct std = (true, ("high"))) ∧
    (¬(15 < pct ∧ 20 < std) → (10 < pct ∨ 15 < std) →
      ela_classification pct std = (true, ("medium"))) ∧
    (¬(15 < pct ∧ 20 < std) → ¬(10 < pct ∨ 15 < std) → 5 < pct →
      ela_classification pct std = (true, ("low"))) ∧
    (¬(15 < pct ∧ 20 < std) → ¬(10 < pct ∨ 15 < std) → ¬(5 < pct) →
      ela_classification pct std = (false, ("low"))) := by
  unfold ela_classification
  refine ⟨fun h1 => ?_, fun h1 h2 => ?_, fun h1 h2 h3 => ?_, fun h1 h2 h3 => ?_⟩
  · rw [if_pos h1]
  · rw [if_neg h1, if_pos h2]
  · rw [if_neg h1, if_neg h2, if_pos h3]
  · rw [if_neg h1, if_neg h2, if_neg h3]

theorem C5_ela_breakpoints_witness :
    ela_classification 16 21 = (true, ("high")) :=
  (C5_ela_breakpoints 16 21).1 (by norm_num)

/-- Mirrors the claim's description of the JPEG-ghost local minima over
the fixed ladder: an interior point strictly lower than both neighbours,
listed by its quality. -/
def spec_local_minima (m0 m1 m2 m3 m4 m5 : ℚ) : List Nat :=
  (if m1 < m0 ∧ m1 < m2 then [75] else []) ++
  (if m2 < m1 ∧ m2 < m3 then [80] else []) ++
  (if m3 < m2 ∧ m3 < m4 then [85] else []) ++
  (if m4 < m3 ∧ m4 < m5 then [90] else [])

/-- Mirrors the claim's classification for JPEG ghost detection:
at least two local minima give high-confidence editing with exactly the
minima's qualities listed; exactly one gives medium; otherwise a
global-minimum quality below 95 (the minimum over the first five rungs is
not beaten by the last) with minimal MSE below 50 gives low-confidence
editing; otherwise no editing signal. -/
def ghost_spec_verdict (m0 m1 m2 m3 m4 m5 : ℚ) : Bool × String × List Nat :=
  let L := spec_local_minima m0 m1 m2 m3 m4 m5
  let gmin5 := min (min (min (min m0 m1) m2) m3) m4
  if 2 ≤ L.length then (true, ("high"), L)
  else if L.length = 1 then (true, ("medium"), L)
  else if gmin5 ≤ m5 ∧ min gmin5 m5 < 50 then (true, ("low"), L)
  else (false, ("low"), L)

theorem pyMinByVal_val (x : Nat × ℚ) (xs : List (Nat × ℚ)) :
    (pyMinByVal x xs).2 = xs.foldl (fun acc y => min acc y.2) x.2 := by
  induction xs generalizing x with
  | nil => rfl
  | cons y ys ih =>
    unfold pyMinByVal at *
    dsimp only [List.foldl]
    rw [ih]
    congr 1
    rcases lt_or_le y.2 x.2 with h | h
    · rw [if_pos h]; exact (min_eq_right (le_of_lt h)).symm
    · rw [if_neg (not_lt.mpr h)]; exact (min_eq_left h).symm

theorem pyMinByVal_eq_or_mem (x : Nat × ℚ) (xs : List (Nat × ℚ)) :
    pyMinByVal x xs = x ∨ pyMinByVal x xs ∈ xs := by
  induction xs generalizing x with
  | nil => exact Or.inl rfl
  | cons y ys ih =>
    unfold pyMinByVal at *
    dsimp only [List.foldl]
    rcases ih (if y.2 < x.2 then y else x) with h | h
    · rw [h]
      by_cases hc : y.2 < x.2
      · rw [if_pos hc]; exact Or.inr (List.mem_cons_self _ _)
      · rw [if_neg hc]; exact Or.inl rfl
    · exact Or.inr (List.mem_cons_of_mem _ h)

theorem localMinima_six (m0 m1 m2 m3 m4 m5 : ℚ) :
    localMinima [(70,m0),(75,m1),(80,m2),(85,m3),(90,m4),(95,m5)] =
      (if m1 < m0 ∧ m1 < m2 then [(75,m1)] else []) ++
      (if m2 < m1 ∧ m2 < m3 then [(80,m2)] else []) ++
      (if m3 < m2 ∧ m3 < m4 then [(85,m3)] else []) ++
      (if m4 < m3 ∧ m4 < m5 then [(90,m4)] else []) := by
  unfold localMinima
  have hidx : (List.range
      (([(70,m0),(75,m1),(80,m2),(85,m3),(90,m4),(95,m5)] : List (Nat × ℚ)).length - 2)).map
      (· + 1) = [1, 2, 3, 4] := rfl
  rw [hidx]
  norm_num [List.filterMap]
  split_ifs <;> simp

theorem localMinima_six_fst (m0 m1 m2 m3 m4 m5 : ℚ) :
    (localMinima [(70,m0),(75,m1),(80,m2),(85,m3),(90,m4),(95,m5)]).map Prod.fst =
      spec_local_minima m0 m1 m2 m3 m4 m5 := by
  rw [localMinima_six]
  unfold spec_local_minima
  simp [apply_ite (List.map Prod.fst)]

theorem localMinima_six_length (m0 m1 m2 m3 m4 m5 : ℚ) :
    (localMinima [(70,m0),(75,m1),(80,m2),(85,m3),(90,m4),(95,m5)]).length =
      (spec_local_minima m0 m1 m2 m3 m4 m5).length := by
  rw [← localMinima_six_fst m0 m1 m2 m3 m4 m5, List.length_map]

theorem pyMin_six_val (m0 m1 m2 m3 m4 m5 : ℚ) :
    (pyMinByVal (70,m0) [(75,m1),(80,m2),(85,m3),(90,m4),(95,m5)]).2 =
      min (min (min (min (min m0 m1) m2) m3) m4) m5 := by
  rw [pyMinByVal_val]; rfl

theorem pyMin_six_fst_lt (m0 m1 m2 m3 m4 m5 : ℚ) :
    (pyMinByVal (70,m0) [(75,m1),(80,m2),(85,m3),(90,m4),(95,m5)]).1 < 95 ↔
      min (min (min (min m0 m1) m2) m3) m4 ≤ m5 := by
  have hsplit : pyMinByVal (70,m0) [(75,m1),(80,m2),(85,m3),(90,m4),(95,m5)] =
      (if m5 < (pyMinByVal (70,m0) [(75,m1),(80,m2),(85,m3),(90,m4)]).2
        then (95,m5) else pyMinByVal (70,m0) [(75,m1),(80,m2),(85,m3),(90,m4)]) := by
    unfold pyMinByVal
    rw [show ([(75,m1),(80,m2),(85,m3),(90,m4),(95,m5)] : List (Nat × ℚ)) =
        [(75,m1),(80,m2),(85,m3),(90,m4)] ++ [(95,m5)] from rfl, List.foldl_append]
    rfl
  have hv : (pyMinByVal (70,m0) [(75,m1),(80,m2),(85,m3),(90,m4)]).2 =
      min (min (min (min m0 m1) m2) m3) m4 := by rw [pyMinByVal_val]; rfl
  have hq : (pyMinByVal (70,m0) [(75,m1),(80,m2),(85,m3),(90,m4)]).1 < 95 := by
    rcases pyMinByVal_eq_or_mem (70,m0) [(75,m1),(80,m2),(85,m3),(90,m4)] with h | h
    · rw [h]; norm_num
    · simp only [List.mem_cons, List.not_mem_nil, or_false] at h
      rcases h with h | h | h | h <;> rw [h] <;> norm_num
  rw [hsplit]
  by_cases hc : m5 < (pyMinByVal (70,m0) [(75,m1),(80,m2),(85,m3),(90,m4)]).2
  · rw [if_pos hc]
    rw [hv] at hc
    constructor
    · intro h; norm_num at h
    · intro h; linarith
  · rw [if_neg hc]
    rw [hv] at hc
    exact ⟨fun _ => not_lt.mp hc, fun _ => hq⟩

/-- C6: the JPEG ghost verdict matches the spec's case analysis: at least
two local minima give high-confidence editing with exactly the minima's
qualities as `suspected_quality_levels`, exactly one gives medium,
otherwise a global minimum before quality 95 with MSE below 50 gives
low-confidence editing, otherwise no editing signal. -/
theorem C6_ghost_ladder (m0 m1 m2 m3 m4 m5 : ℚ) :
    (jpeg_ghost_classification [m0,m1,m2,m3,m4,m5]).map
      (fun r => (r.editing_detected, r.confidence, r.suspected_quality_levels)) =
      some (ghost_spec_verdict m0 m1 m2 m3 m4 m5) := by
  have hzip : ghost_qualities.zip [m0,m1,m2,m3,m4,m5] =
      [(70,m0),(75,m1),(80,m2),(85,m3),(90,m4),(95,m5)] := rfl
  unfold jpeg_ghost_classification
  rw [hzip]
  unfold ghost_spec_verdict
  dsimp only [Option.map_some]
  simp only [localMinima_six_length, localMinima_six_fst, pyMin_six_val,
    propext (pyMin_six_fst_lt m0 m1 m2 m3 m4 m5)]
  split_ifs <;> rfl

/-- C8 counterexample: a 100×100 RGB PNG of 100 bytes has compression
ratio `0.0033 < 0.05`, yet no re-encoding signal is emitted and
`re_encoding_detected` stays false — the `< 0.05` check of
`_analyze_compression` runs only for JPEG images. -/
theorem C8_counterexample :
    (analyze_compression ⟨some ("PNG"), ("RGB"), 100, 100, Option.none, false, false⟩
      100).compression_ratio < 0.05 ∧
    (analyze_compression ⟨some ("PNG"), ("RGB"), 100, 100, Option.none, false, false⟩
      100).re_encoding_detected = false ∧
    (analyze_compression ⟨some ("PNG"), ("RGB"), 100, 100, Option.none, false, false⟩
      100).re_encoding_indicators = [] := by
  have h : analyze_compression ⟨some ("PNG"), ("RGB"), 100, 100, Option.none, false, false⟩
      100 = ⟨some ("PNG"), 100, round4 ((100:ℚ) / 30000), false, []⟩ := by
    unfold analyze_compression
    rw [if_neg (by decide : ¬ (100 * 100 * ("RGB" : String).length = 0)),
      if_neg (by decide : ¬ (some ("PNG" : String) = some ("JPEG" : String))),
      if_pos (rfl : some ("PNG" : String) = some ("PNG" : String))]
    rfl
  rw [h]
  refine ⟨by norm_num [round4, roundHalfEven], rfl, rfl⟩

/-- C8 amended: for JPEG images (with non-degenerate dimensions) the
compression ratio is `round(byte_size / (width*height*len(mode)), 4)` and
a ratio below 0.05 sets `re_encoding_detected` and emits the
"unusually high compression" manipulation indicator; for non-JPEG formats
the ratio is computed but the threshold check is skipped. -/
theorem C8_jpeg_compression_signal (img : PILImage) (byte_len : Nat)
    (hfmt : img.format = some "JPEG")
    (hnz : ¬ img.width * img.height * img.mode.length = 0) :
    (analyze_compression img byte_len).compression_ratio =
      round4 ((byte_len : ℚ) / ((img.width * img.height * img.mode.length : Nat) : ℚ)) ∧
    ((analyze_compression img byte_len).compression_ratio < 0.05 →
      (analyze_compression img byte_len).re_encoding_detected = true ∧
      ("Unusually high compression (possible multiple re-encodings)") ∈
        (analyze_compression img byte_len).re_encoding_indicators) := by
  unfold analyze_compression
  rw [if_neg hnz, if_pos hfmt]
  dsimp only
  refine ⟨rfl, fun h => ⟨?_, ?_⟩⟩
  · exact decide_eq_true h
  · rw [if_pos h]
    exact List.mem_append_left _ (List.mem_append_left _ (List.mem_cons_self _ _))

theorem C8_jpeg_compression_signal_witness :
    (analyze_compression ⟨some ("JPEG"), ("RGB"), 100, 100, Option.none, false, false⟩
      100).re_encoding_detected = true ∧
    ("Unusually high compression (possible multiple re-encodings)") ∈
      (analyze_compression ⟨some ("JPEG"), ("RGB"), 100, 100, Option.none, false, false⟩
        100).re_encoding_indicators := by
  have hratio : (analyze_compression
      ⟨some ("JPEG"), ("RGB"), 100, 100, Option.none, false, false⟩
      100).compression_ratio < 0.05 := by
    rw [(C8_jpeg_compression_signal _ 100 rfl (by decide)).1,
      show ("RGB" : String).length = 3 from rfl]
    norm_num [round4, roundHalfEven]
  exact (C8_jpeg_compression_signal _ 100 rfl (by decide)).2 hratio

/-- A 20000-pixel image: 10000 black pixels followed by 10000 grey ones. -/
def pixelsBig : List (ℚ × ℚ × ℚ) :=
  List.replicate 10000 ((0:ℚ), (0:ℚ), (0:ℚ)) ++
  List.replicate 10000 ((200:ℚ), (200:ℚ), (200:ℚ))

/-- One possible `random.sample` outcome on `pixelsBig`: all black. -/
def sampleUniform : List (ℚ × ℚ × ℚ) := List.replicate 10000 ((0:ℚ), (0:ℚ), (0:ℚ))

/-- Another possible `random.sample` outcome on `pixelsBig`: half black,
half grey. -/
def sampleMixed : List (ℚ × ℚ × ℚ) :=
  List.replicate 5000 ((0:ℚ), (0:ℚ), (0:ℚ)) ++
  List.replicate 5000 ((200:ℚ), (200:ℚ), (200:ℚ))

theorem roundHalfEvenR_intCast (n : ℤ) : roundHalfEvenR (n : ℝ) = n := by
  unfold roundHalfEvenR
  rw [Int.floor_intCast]
  dsimp only
  rw [if_pos]
  norm_num

theorem round2R_zero : round2R 0 = 0 := by
  unfold round2R
  rw [show ((0:ℝ) * 100) = ((0:ℤ) : ℝ) by norm_num, roundHalfEvenR_intCast]
  norm_num

theorem round2R_hundred : round2R 100 = 100 := by
  unfold round2R
  rw [show ((100:ℝ) * 100) = ((10000:ℤ) : ℝ) by norm_num, roundHalfEvenR_intCast]
  norm_num

theorem calc_stats_uniform :
    calc_stats (List.replicate 10000 (0:ℚ)) = ⟨0, 0⟩ := by
  unfold calc_stats
  dsimp only
  norm_num
  exact ⟨by norm_num [round2, roundHalfEven], round2R_zero⟩

theorem calc_stats_mixed :
    calc_stats (List.replicate 5000 (0:ℚ) ++ List.replicate 5000 200) = ⟨100, 100⟩ := by
  unfold calc_stats
  dsimp only
  norm_num
  constructor
  · norm_num [round2, roundHalfEven]
  · rw [show (10000:ℝ) = (100:ℝ)^2 by norm_num,
      Real.sqrt_sq (by norm_num : (0:ℝ) ≤ 100)]
    exact round2R_hundred

theorem C4_statistics_sampleUniform :
    (analyze_image_statistics sampleUniform).suspicious_patterns =
      [("Very low color variance (unnatural uniformity)")] := by
  unfold analyze_image_statistics sampleUniform
  dsimp only
  rw [List.map_replicate, List.map_replicate, List.map_replicate]
  dsimp only
  rw [calc_stats_uniform]
  dsimp only
  rw [if_pos (by norm_num : ((0:ℝ) + 0 + 0) / 3 < 20)]

theorem C4_statistics_sampleMixed :
    (analyze_image_statistics sampleMixed).suspicious_patterns = [] := by
  unfold analyze_image_statistics sampleMixed
  dsimp only
  rw [List.map_append, List.map_append, List.map_append,
    List.map_replicate, List.map_replicate, List.map_replicate,
    List.map_replicate, List.map_replicate, List.map_replicate]
  dsimp only
  rw [calc_stats_mixed]
  dsimp only
  rw [if_neg (by norm_num : ¬ ((100:ℝ) + 100 + 100) / 3 < 20),
    if_neg (by norm_num : ¬ (100:ℝ) < ((100:ℝ) + 100 + 100) / 3)]

/-- C4 counterexample: `random.sample` is unseeded, and for an image with
more than 10000 pixels two legitimate sample outcomes (both of size
10000, drawn without replacement from the same pixel list) yield
different statistics and different signals — the channel-statistics
analysis is not a deterministic function of the decoded pixel data. -/
theorem C4_counterexample :
    IsSample pixelsBig sampleUniform ∧ IsSample pixelsBig sampleMixed ∧
    analyze_image_statistics sampleUniform ≠ analyze_image_statistics sampleMixed := by
  refine ⟨⟨?_, ?_⟩, ⟨?_, ?_⟩, ?_⟩
  · show sampleUniform.length = sample_size pixelsBig
    unfold sampleUniform sample_size pixelsBig
    rw [List.length_replicate, List.length_append, List.length_replicate,
      List.length_replicate]
    norm_num [Nat.min_def]
  · exact (List.sublist_append_left _ _).subperm
  · show sampleMixed.length = sample_size pixelsBig
    unfold sampleMixed sample_size pixelsBig
    rw [List.length_append, List.length_replicate, List.length_replicate,
      List.length_append, List.length_replicate, List.length_replicate]
    norm_num [Nat.min_def]
  · exact (List.Sublist.append
      ((List.replicate_sublist_replicate _).mpr (by norm_num))
      ((List.replicate_sublist_replicate _).mpr (by norm_num))).subperm
  · intro hEq
    have hpat := congrArg ImageStats.suspicious_patterns hEq
    rw [C4_statistics_sampleUniform, C4_statistics_sampleMixed] at hpat
    exact List.cons_ne_nil _ _ hpat

/-- C4 amended: the channel statistics are invariant under permutation of
the sampled pixels, so the analysis is deterministic for images of at
most 10000 pixels (where the sample is the whole pixel list in random
order); for larger images different samples can change the result (see
the counterexample). -/
theorem C4_statistics_perm_invariant (s1 s2 : List (ℚ × ℚ × ℚ)) (h : s1.Perm s2) :
    analyze_image_statistics s1 = analyze_image_statistics s2 := by
  have hcalc : ∀ (f : ℚ × ℚ × ℚ → ℚ), calc_stats (s1.map f) = calc_stats (s2.map f) := by
    intro f
    have hp : (s1.map f).Perm (s2.map f) := h.map f
    unfold calc_stats
    dsimp only
    rw [hp.sum_eq, hp.length_eq]
    congr 2
    rw [List.Perm.sum_eq (hp.map _)]
  unfold analyze_image_statistics
  dsimp only
  rw [hcalc (fun p => p.1), hcalc (fun p => p.2.1), hcalc (fun p => p.2.2)]

theorem C4_statistics_perm_invariant_witness :
    analyze_image_statistics [((0:ℚ),(1:ℚ),(2:ℚ)), ((3:ℚ),(4:ℚ),(5:ℚ))] =
      analyze_image_statistics [((3:ℚ),(4:ℚ),(5:ℚ)), ((0:ℚ),(1:ℚ),(2:ℚ))] :=
  C4_statistics_perm_invariant _ _ (by decide)

end VeriSure
